import Mathlib

/-!
Shallow embedding of the timeline, TTS-truncation, background-preparation,
audio-mixing, render-orchestration, progress-reporting and filename logic of
the RedditStoryBot repository (files `video_creation/final_video.py`,
`video_creation/background.py`, `TTS/engine_wrapper.py`), together with
theorems settling the specification claims about them.

Durations and times are modelled as rationals; machine floats of the source
are treated as exact arithmetic.
-/

namespace RedditStoryBot

/-! ## Overlay schedule (`make_final_video`, non-storymode loop)

`final_video.py` lines 224-238: `current_time = 0`; for each clip `i` the
overlay is enabled `between(t, current_time, current_time + audio_clips_durations[i])`
and then `current_time += audio_clips_durations[i]`.  No pacing constants and
no truncation appear in this loop. -/

/-- Overlay windows produced by the loop, starting from cursor `t`. -/
def overlayWindowsFrom (t : ℚ) : List ℚ → List (ℚ × ℚ)
  | [] => []
  | d :: ds => (t, t + d) :: overlayWindowsFrom (t + d) ds

/-- Overlay windows of `make_final_video`: the loop starts at `current_time = 0`. -/
def overlayWindows (ds : List ℚ) : List (ℚ × ℚ) :=
  overlayWindowsFrom 0 ds

/-- The cursor value after the loop, starting from `t`. -/
def currentTimeFrom (t : ℚ) : List ℚ → ℚ
  | [] => t
  | d :: ds => currentTimeFrom (t + d) ds

/-- Final `current_time` after the overlay loop of `make_final_video`. -/
def currentTimeAfter (ds : List ℚ) : ℚ :=
  currentTimeFrom 0 ds

/-! ## Reference algorithm of spec §4.2 (stated from the spec's words, for
comparison with the code's schedule; it does not occur in the source). -/

/-- The four pacing constants and the hard cap of spec §4.2. -/
structure Pacing where
  leadIn : ℚ
  ttsPad : ℚ
  interPad : ℚ
  tailPad : ℚ
  maxLength : ℚ

/-- Spec §4.2 step 3: subsequent segments after the title. -/
def specLoop (p : Pacing) (cursor : ℚ) : List ℚ → List (ℚ × ℚ) × ℚ
  | [] => ([], cursor)
  | d :: ds =>
    let off := 2 * p.ttsPad + p.interPad
    if cursor + off + d + p.tailPad ≤ p.maxLength then
      let rest := specLoop p (cursor + off + d) ds
      ((cursor + off, cursor + off + d) :: rest.1, rest.2)
    else ([], cursor)

/-- Spec §4.2 schedule: title window, loop over the rest, `total = cursor + tailPad`. -/
def specSchedule (p : Pacing) (titleDur : ℚ) (rest : List ℚ) : List (ℚ × ℚ) × ℚ :=
  let start := p.leadIn + p.ttsPad
  let r := specLoop p (start + titleDur) rest
  ((start, start + titleDur) :: r.1, r.2 + p.tailPad)

/-! ## TTS engine wrapper (`TTS/engine_wrapper.py`)

`TTSEngine.call_tts` (lines 127-168): on success the synthesized clip's
duration is added to `self.length`; on any exception the bare `except:`
branch executes `self.length = 0`.  A segment outcome is `some d` (synthesis
succeeded, clip duration `d`) or `none` (the TTS module raised). -/

/-- Effect of one `call_tts` call on the accumulated `self.length`. -/
def call_tts_length (len : ℚ) : Option ℚ → ℚ
  | some d => len + d
  | none => 0

/-- Loop of `TTSEngine.run` (lines 69-81) over the comments: before each comment the loop
breaks iff `self.length > self.max_length` (strict); otherwise `call_tts` runs
and the loop continues.  Returns the accumulated length after the loop. -/
def ttsRunLength (maxLength : ℚ) (len : ℚ) : List (Option ℚ) → ℚ
  | [] => len
  | o :: os =>
    if len > maxLength then len
    else ttsRunLength maxLength (call_tts_length len o) os

/-- Number of comment segments synthesized by the `TTSEngine.run` loop,
starting with accumulated length `len` (all syntheses succeeding). -/
def ttsLoopCount (maxLength : ℚ) (len : ℚ) : List ℚ → ℕ
  | [] => 0
  | d :: ds =>
    if len > maxLength then 0
    else 1 + ttsLoopCount maxLength (len + d) ds

/-- Number of segments (title plus comments) synthesized by `TTSEngine.run`:
the title is synthesized unconditionally before the loop, so it always
counts; the comment loop starts with `self.length = titleDur`. -/
def ttsIncludedCount (titleDur : ℚ) (commentDurs : List ℚ) (maxLength : ℚ) : ℕ :=
  1 + ttsLoopCount maxLength titleDur commentDurs

/-! ## Progress reporting (`video_creation/background.py`, `extract_subclip`)

Lines 114-131: a `tqdm` bar starts at `n = 0`.  For an `out_time_ms` token of
value `v` the code computes `time = max(round(float(v) / 1000000.0, 2), 0)`
and calls `bar.update(time - bar.n)`, so the bar position becomes exactly
`time`.  For `progress=end` it calls `bar.update(bar.total - bar.n)`, setting
the position to `total`.  Other keys leave the position unchanged. -/

/-- Python's `round(x, 2)` on exact rationals: round half to even at two
decimal places. -/
def pyRound2 (q : ℚ) : ℚ :=
  let s := q * 100
  let f : ℤ := ⌊s⌋
  let r : ℤ :=
    if s - f < 1/2 then f
    else if s - f > 1/2 then f + 1
    else if f % 2 = 0 then f else f + 1
  (r : ℚ) / 100

/-- The mapped bar position of an `out_time_ms` token:
`max(round(v / 1000000.0, 2), 0)`. -/
def barPos (v : ℤ) : ℚ :=
  max (pyRound2 ((v : ℚ) / 1000000)) 0

/-- One progress token of the transcoding engine's `key=value` stream. -/
inductive FfToken where
  | outTimeMs (v : ℤ)
  | progressEnd
  | otherKey
deriving DecidableEq

/-- Bar position after consuming one token. -/
def barStep (total n : ℚ) : FfToken → ℚ
  | .outTimeMs v => barPos v
  | .progressEnd => total
  | .otherKey => n

/-- Bar position after consuming a token sequence, starting from `n = 0`. -/
def barRun (total : ℚ) (toks : List FfToken) : ℚ :=
  toks.foldl (barStep total) 0

/-! ## Background interval selection (`background.py`, `get_start_and_end_times`)

Lines 35-46: `random_time = randrange(180, int(length_of_clip) - int(video_length))`
and the function returns `(random_time, random_time + video_length)`.
`randrange(a, b)` yields a uniform element of `[a, b)` and raises
`ValueError` when the range is empty (`b ≤ a`); the draw is modelled by a
free parameter `r : ℕ` mapped into the range, and the raise by `none`. -/

/-- Python `int()` on a rational: truncation toward zero. -/
def pyInt (q : ℚ) : ℤ :=
  if 0 ≤ q then ⌊q⌋ else -⌊-q⌋

/-- Embedding of `get_start_and_end_times`, with the random draw `r` made explicit. -/
def get_start_and_end_times (video_length length_of_clip : ℚ) (r : ℕ) :
    Option (ℚ × ℚ) :=
  let hi : ℤ := pyInt length_of_clip - pyInt video_length
  if 180 < hi then
    let t : ℤ := 180 + (r : ℤ) % (hi - 180)
    some ((t : ℚ), (t : ℚ) + video_length)
  else none

/-! ## Background preparation (`final_video.py`, `prepare_background`)

Lines 42-67: the function unconditionally builds the job
`ffmpeg.input(...).filter("crop", f"ih*({W}/{H})", "ih")` — output width
`ih·(W/H)`, output height `ih`, with ffmpeg's default centered offsets
`x = (in_w-out_w)/2`, `y = (in_h-out_h)/2` — and runs the engine.  There is
no dimension check before the run and no `RenderError` anywhere; the only
failure handling is `except ffmpeg.Error: print(e.stderr.decode(...)); exit(1)`.
Modelled engine behaviour: the crop filter fails exactly when the requested
output width exceeds the source width (the crop offset would be negative). -/

/-- Observable events of one `prepare_background` call. -/
inductive PrepEvent where
  | engineInvoked
  | renderErrorRaised
  | stderrPrintedExitOne
deriving DecidableEq

/-- The crop output width the code requests: `ih*(W/H)`. -/
def cropOutW (ih W H : ℚ) : ℚ :=
  ih * (W / H)

/-- Event trace of `prepare_background` on a source of size `iw × ih`:
the engine is always invoked first (no pre-flight validation); when the
requested crop width exceeds the source width the engine fails and the code
prints the engine's stderr and exits with status 1. -/
def prepare_background_events (iw ih W H : ℚ) : List PrepEvent :=
  .engineInvoked :: (if cropOutW ih W H ≤ iw then [] else [.stderrPrintedExitOne])

/-- Crop geometry `(out_w, out_h, x, y)` produced on success (`none` when
the engine fails): width `ih*(W/H)`, height `ih`, ffmpeg default centered
offsets. -/
def prepare_background_crop (iw ih W H : ℚ) : Option (ℚ × ℚ × ℚ × ℚ) :=
  if cropOutW ih W H ≤ iw then
    some (cropOutW ih W H, ih, (iw - cropOutW ih W H) / 2, 0)
  else none

/-! ## Audio assembly (`final_video.py`, `merge_background_audio`)

Lines 70-87: if the configured `background_audio_volume` is `0` the narration
audio is returned unchanged; otherwise the function unconditionally builds an
`amix` graph reading `assets/temp/<id>/background.mp3` — it never checks that
the file exists and emits no warning. -/

/-- The audio track `merge_background_audio` returns. -/
inductive AudioTrack where
  | unmixed
  | amixWithBackground (volume : ℚ)
deriving DecidableEq

/-- Embedding of `merge_background_audio` as a function of the configured volume. -/
def merge_background_audio (volume : ℚ) : AudioTrack :=
  if volume = 0 then .unmixed else .amixWithBackground volume

/-- Outcome of the subsequent render run in `make_final_video`
(lines 308-326).  Modelled engine behaviour: a job whose filter graph reads
a missing input file fails; the code's `except ffmpeg.Error` branch then
prints the engine's stderr and calls `exit(1)`. -/
inductive RunOutcome where
  | completed
  | exitedOne
deriving DecidableEq

/-- Outcome of the main render as a function of the configured volume and
whether the background-music file exists. -/
def finalRenderOutcome (volume : ℚ) (bgExists : Bool) : RunOutcome :=
  match merge_background_audio volume with
  | .unmixed => .completed
  | .amixWithBackground _ => if bgExists then .completed else .exitedOne

/-! ## Render orchestration (`make_final_video`, lines 308-360)

The music-mixed render runs first inside `try/except`; on `ffmpeg.Error` the
code prints the stderr and calls `exit(1)`, terminating the process.  Only
if it returns (and `allowOnlyTTSFolder` holds) is the narration-only render
attempted, with the same failure handling; afterwards `save_data` runs. -/

/-- Observable events of the render phase. -/
inductive RenderEvent where
  | mainAttempted
  | onlyTTSAttempted
  | exitedOne
  | saved
deriving DecidableEq

/-- Event trace of the render phase as a function of the `allowOnlyTTSFolder`
flag and of whether each engine run fails. -/
def renderPhase (allowOnlyTTS mainFails ttsFails : Bool) : List RenderEvent :=
  .mainAttempted ::
    (if mainFails then [.exitedOne]
     else if allowOnlyTTS then
       .onlyTTSAttempted :: (if ttsFails then [.exitedOne] else [.saved])
     else [.saved])

/-! ## Filename sanitization (`final_video.py`, `name_normalize` and the
filename construction of `make_final_video`)

`make_final_video` line 240 first strips the thread title with
`re.sub(r"[^\w\s-]", "", ...)`; line 244 then sets
`filename = name_normalize(title)[:251]`.  `name_normalize` (lines 25-39)
applies five `re.sub` passes and, when no `post_lang` is configured (the
case the claims fix), returns the result untranslated.  The substitutions
are modelled character-exactly on ASCII input (`\w` = alphanumeric or
underscore, `\s` = ASCII whitespace); note the character classes `[w,W]`,
`[o,O,0]` of the source contain a literal comma. -/

/-- Python `\w` on ASCII input. -/
def wordChar (c : Char) : Bool :=
  c.isAlphanum || c == '_'

/-- Python `\s` on ASCII input. -/
def spaceChar (c : Char) : Bool :=
  c == ' ' || c == '\t' || c == '\n' || c == '\x0d' || c == '\x0b' || c == '\x0c'

/-- Line 240: `re.sub(r"[^\w\s-]", "", title)`. -/
def stripSpecial (s : List Char) : List Char :=
  s.filter fun c => wordChar c || spaceChar c || c == '-'

/-- Line 26: `re.sub(r'[?\\"%*:|<>]', "", name)`. -/
def removeIllegal (s : List Char) : List Char :=
  s.filter fun c =>
    !(c == '?' || c == '\\' || c == '"' || c == '%' || c == '*' || c == ':' ||
      c == '|' || c == '<' || c == '>')

/-- Match `\s?\/` at the head of the list, returning the remainder.
Backtracking is deterministic because `/` is not whitespace. -/
def optSpaceSlash : List Char → Option (List Char)
  | '/' :: r => some r
  | c :: '/' :: r => if spaceChar c then some r else none
  | _ => none

/-- Match `\s?` followed by one character of class `p` (a class disjoint
from whitespace), returning the remainder. -/
def optSpaceClass (p : Char → Bool) : List Char → Option (List Char)
  | [] => none
  | c :: r =>
    if p c then some r
    else if spaceChar c then
      match r with
      | c2 :: r2 => if p c2 then some r2 else none
      | [] => none
    else none

/-- Match a nonempty run of class-`p` characters (greedy `p+`), returning
the run and the remainder. -/
def takeClassPlus (p : Char → Bool) (s : List Char) : Option (List Char × List Char) :=
  match s.takeWhile p with
  | [] => none
  | g => some (g, s.drop g.length)

/-- Match `\s?` followed by a nonempty greedy run of class `p` (disjoint
from whitespace). -/
def optSpaceClassPlus (p : Char → Bool) : List Char → Option (List Char × List Char)
  | [] => none
  | c :: r =>
    if spaceChar c then takeClassPlus p r
    else takeClassPlus p (c :: r)

/-- The source's class `[w,W]` (it contains a literal comma). -/
def wClass (c : Char) : Bool :=
  c == 'w' || c == ',' || c == 'W'

/-- The source's class `[o,O,0]` (it contains a literal comma). -/
def oClass (c : Char) : Bool :=
  c == 'o' || c == ',' || c == 'O' || c == '0'

/-- Line 27 matcher: `( [w,W]\s?\/\s?[o,O,0])`, replacement `" without"`. -/
def tryWO (s : List Char) : Option (List Char × List Char) :=
  match s with
  | ' ' :: w :: r =>
    if wClass w then
      match optSpaceSlash r with
      | some r2 =>
        match optSpaceClass oClass r2 with
        | some r3 => some (" without".toList, r3)
        | none => none
      | none => none
    else none
  | _ => none

/-- Line 28 matcher: `( [w,W]\s?\/)`, replacement `" with"`. -/
def tryW (s : List Char) : Option (List Char × List Char) :=
  match s with
  | ' ' :: w :: r =>
    if wClass w then
      match optSpaceSlash r with
      | some r2 => some (" with".toList, r2)
      | none => none
    else none
  | _ => none

/-- Line 29 matcher: `(\d+)\s?\/\s?(\d+)`, replacement `"\1 of \2"`. -/
def tryNumSlashNum (s : List Char) : Option (List Char × List Char) :=
  match takeClassPlus (fun c => c.isDigit) s with
  | none => none
  | some (g1, r1) =>
    match optSpaceSlash r1 with
    | none => none
    | some r2 =>
      match optSpaceClassPlus (fun c => c.isDigit) r2 with
      | none => none
      | some (g2, r3) => some (g1 ++ " of ".toList ++ g2, r3)

/-- Line 30 matcher: `(\w+)\s?\/\s?(\w+)`, replacement `"\1 or \2"`. -/
def tryWordSlashWord (s : List Char) : Option (List Char × List Char) :=
  match takeClassPlus wordChar s with
  | none => none
  | some (g1, r1) =>
    match optSpaceSlash r1 with
    | none => none
    | some r2 =>
      match optSpaceClassPlus wordChar r2 with
      | none => none
      | some (g2, r3) => some (g1 ++ " or ".toList ++ g2, r3)

/-- Driver for `re.sub`: scan left to right, replacing each leftmost
non-overlapping match; every matcher above consumes at least two characters,
so fuel equal to the input length never runs out. -/
def reSubScan (m : List Char → Option (List Char × List Char)) :
    ℕ → List Char → List Char
  | 0, s => s
  | _ + 1, [] => []
  | fuel + 1, c :: rest =>
    match m (c :: rest) with
    | some (rep, rem) => rep ++ reSubScan m fuel rem
    | none => c :: reSubScan m fuel rest

/-- Application of `re.sub(pattern, replacement, s)` for the matchers above. -/
def reSub (m : List Char → Option (List Char × List Char)) (s : List Char) :
    List Char :=
  reSubScan m s.length s

/-- Embedding of `name_normalize` (lines 25-39): the five substitution passes, then slash
removal; the `post_lang` translation branch is not taken (no translation
configured, as the claims fix). -/
def name_normalize (s : List Char) : List Char :=
  let s1 := removeIllegal s
  let s2 := reSub tryWO s1
  let s3 := reSub tryW s2
  let s4 := reSub tryNumSlashNum s3
  let s5 := reSub tryWordSlashWord s4
  s5.filter fun c => !(c == '/')

/-- The output filename of `make_final_video` (lines 240 and 244):
`name_normalize(re.sub(r"[^\w\s-]", "", thread_title))[:251]`. -/
def codeFilename (threadTitle : List Char) : List Char :=
  (name_normalize (stripSpecial threadTitle)).take 251

/-! ## Helper lemmas on the overlay schedule -/

theorem currentTimeFrom_eq_add_sum (ds : List ℚ) :
    ∀ t : ℚ, currentTimeFrom t ds = t + ds.sum := by
  induction ds with
  | nil => intro t; simp [currentTimeFrom]
  | cons d ds ih =>
    intro t
    rw [currentTimeFrom, ih, List.sum_cons]
    ring

theorem le_currentTimeFrom (ds : List ℚ) :
    ∀ t : ℚ, (∀ d ∈ ds, 0 ≤ d) → t ≤ currentTimeFrom t ds := by
  induction ds with
  | nil => intro t _; simp [currentTimeFrom]
  | cons d ds ih =>
    intro t h
    rw [currentTimeFrom]
    have hd : 0 ≤ d := h d (List.mem_cons_self d ds)
    have := ih (t + d) fun x hx => h x (List.mem_cons_of_mem d hx)
    linarith

theorem overlayWindowsFrom_bounds (ds : List ℚ) :
    ∀ t : ℚ, (∀ d ∈ ds, 0 ≤ d) →
      ∀ w ∈ overlayWindowsFrom t ds, t ≤ w.1 ∧ w.2 ≤ currentTimeFrom t ds := by
  induction ds with
  | nil => intro t _ w hw; simp [overlayWindowsFrom] at hw
  | cons d ds ih =>
    intro t h w hw
    have hd : 0 ≤ d := h d (List.mem_cons_self d ds)
    have htail : ∀ x ∈ ds, 0 ≤ x := fun x hx => h x (List.mem_cons_of_mem d hx)
    rw [overlayWindowsFrom] at hw
    rw [currentTimeFrom]
    rcases List.mem_cons.1 hw with hw | hw
    · subst hw
      exact ⟨le_refl t, le_currentTimeFrom ds (t + d) htail⟩
    · have := ih (t + d) htail w hw
      exact ⟨by linarith [this.1], this.2⟩

theorem overlayWindowsFrom_pairwise (ds : List ℚ) :
    ∀ t : ℚ, (∀ d ∈ ds, 0 ≤ d) →
      List.Pairwise (fun w1 w2 => w1.2 ≤ w2.1) (overlayWindowsFrom t ds) := by
  induction ds with
  | nil => intro t _; simp [overlayWindowsFrom]
  | cons d ds ih =>
    intro t h
    have htail : ∀ x ∈ ds, 0 ≤ x := fun x hx => h x (List.mem_cons_of_mem d hx)
    rw [overlayWindowsFrom]
    refine List.pairwise_cons.2 ⟨?_, ih (t + d) htail⟩
    intro w hw
    exact (overlayWindowsFrom_bounds ds (t + d) htail w hw).1

theorem overlayWindowsFrom_chain (ds : List ℚ) :
    ∀ t : ℚ, List.Chain' (fun w1 w2 => w1.2 = w2.1) (overlayWindowsFrom t ds) := by
  induction ds with
  | nil => intro t; simp [overlayWindowsFrom]
  | cons d ds ih =>
    intro t
    cases ds with
    | nil => simp [overlayWindowsFrom]
    | cons d2 ds2 =>
      have h := ih (t + d)
      simp only [overlayWindowsFrom] at h ⊢
      exact List.chain'_cons.2 ⟨rfl, h⟩

theorem overlayWindowsFrom_widths (ds : List ℚ) :
    ∀ t : ℚ, ((overlayWindowsFrom t ds).map fun w => w.2 - w.1) = ds := by
  induction ds with
  | nil => intro t; simp [overlayWindowsFrom]
  | cons d ds ih =>
    intro t
    rw [overlayWindowsFrom, List.map_cons, ih]
    simp

/-! ## Claim theorems -/

/-- C1, counterexample: on durations title=3, replies=4 and 6 with
`leadIn=1, ttsPad=0.5, interPad=1, tailPad=1, maxLength=60`, the overlay
schedule computed by `make_final_video` is NOT the spec §4.2 reference
schedule: the code's windows are `[0,3],[3,7],[7,13]` while the reference
gives `[3/2,9/2],[13/2,21/2],[25/2,37/2]`, and the code's final cursor is
`13`, not the claimed `19.5` (which is what the reference algorithm yields). -/
theorem C1_schedule_counterexample :
    overlayWindows [3, 4, 6] ≠ (specSchedule ⟨1, 1/2, 1, 1, 60⟩ 3 [4, 6]).1 ∧
    overlayWindows [3, 4, 6] = [(0, 3), (3, 7), (7, 13)] ∧
    (specSchedule ⟨1, 1/2, 1, 1, 60⟩ 3 [4, 6]).1 =
      [(3/2, 9/2), (13/2, 21/2), (25/2, 37/2)] ∧
    currentTimeAfter [3, 4, 6] = 13 ∧
    (specSchedule ⟨1, 1/2, 1, 1, 60⟩ 3 [4, 6]).2 = 39/2 ∧
    currentTimeAfter [3, 4, 6] ≠ 39/2 := by
  have h1 : overlayWindows [3, 4, 6] = [(0, 3), (3, 7), (7, 13)] := by
    norm_num [overlayWindows, overlayWindowsFrom]
  have h2 : (specSchedule ⟨1, 1/2, 1, 1, 60⟩ 3 [4, 6]).1 =
      [(3/2, 9/2), (13/2, 21/2), (25/2, 37/2)] := by
    norm_num [specSchedule, specLoop]
  have h3 : currentTimeAfter [3, 4, 6] = 13 := by
    norm_num [currentTimeAfter, currentTimeFrom]
  refine ⟨?_, h1, h2, h3, ?_, ?_⟩
  · rw [h1, h2]
    intro hcontra
    rw [List.cons.injEq, Prod.mk.injEq] at hcontra
    exact absurd hcontra.1.1 (by norm_num)
  · norm_num [specSchedule, specLoop]
  · rw [h3]; norm_num

/-- C1, amended: the overlay schedule computed by `make_final_video` is a
gapless concatenation with no pacing constants and no truncation — the title
window is `[0, titleDuration]`, each window's width is its segment's
duration, consecutive windows are exactly adjacent, and every segment gets a
window; on durations 3, 4, 6 the windows are `[0,3],[3,7],[7,13]` and the
final cursor is `13`. -/
theorem C1_schedule_amended (d : ℚ) (ds : List ℚ) :
    (overlayWindows (d :: ds)).head? = some (0, d) ∧
    (overlayWindows (d :: ds)).length = (d :: ds).length ∧
    ((overlayWindows (d :: ds)).map fun w => w.2 - w.1) = d :: ds ∧
    List.Chain' (fun w1 w2 => w1.2 = w2.1) (overlayWindows (d :: ds)) ∧
    overlayWindows [3, 4, 6] = [(0, 3), (3, 7), (7, 13)] ∧
    currentTimeAfter [3, 4, 6] = 13 := by
  refine ⟨?_, ?_, overlayWindowsFrom_widths (d :: ds) 0,
    overlayWindowsFrom_chain (d :: ds) 0, ?_, ?_⟩
  · simp [overlayWindows, overlayWindowsFrom]
  · have := overlayWindowsFrom_widths (d :: ds) 0
    calc (overlayWindows (d :: ds)).length
        = ((overlayWindows (d :: ds)).map fun w => w.2 - w.1).length := by
          rw [List.length_map]
      _ = (d :: ds).length := by rw [overlayWindows, this]
  · norm_num [overlayWindows, overlayWindowsFrom]
  · norm_num [currentTimeAfter, currentTimeFrom]

/-- C7: the overlay windows built by `make_final_video` from nonnegative
segment durations are pairwise non-overlapping (each window ends no later
than any later window starts; consecutive ones are exactly adjacent) and
every window lies within `[0, total]`, where the total is the final cursor
value — which equals the summed audio durations, i.e. the duration of the
rendered video's audio track. -/
theorem C7_overlay_windows_invariant (ds : List ℚ) (h : ∀ d ∈ ds, 0 ≤ d) :
    List.Pairwise (fun w1 w2 => w1.2 ≤ w2.1) (overlayWindows ds) ∧
    ∀ w ∈ overlayWindows ds, 0 ≤ w.1 ∧ w.2 ≤ currentTimeAfter ds := by
  constructor
  · exact overlayWindowsFrom_pairwise ds 0 h
  · intro w hw
    exact overlayWindowsFrom_bounds ds 0 h w hw

/-- C7, witness: the invariant instantiated on the concrete durations
3, 4, 6. -/
theorem C7_overlay_windows_invariant_witness :
    (∀ d ∈ [(3 : ℚ), 4, 6], 0 ≤ d) ∧
    (List.Pairwise (fun w1 w2 => w1.2 ≤ w2.1) (overlayWindows [3, 4, 6]) ∧
      ∀ w ∈ overlayWindows [3, 4, 6], 0 ≤ w.1 ∧ w.2 ≤ currentTimeAfter [3, 4, 6]) :=
  ⟨by norm_num, C7_overlay_windows_invariant [3, 4, 6] (by norm_num)⟩

/-- C2, counterexample: with durations `[5,5,5]` and `max_length = 10`, the
`TTSEngine.run` loop synthesizes all three segments, not two: the break
condition `self.length > self.max_length` is strict, and the accumulated
length before the comments is 5 and then exactly 10, never strictly above
10. -/
theorem C2_truncation_counterexample :
    ttsIncludedCount 5 [5, 5] 10 = 3 ∧ ttsIncludedCount 5 [5, 5] 10 ≠ 2 := by
  have h : ttsIncludedCount 5 [5, 5] 10 = 3 := by
    norm_num [ttsIncludedCount, ttsLoopCount]
  exact ⟨h, by rw [h]; norm_num⟩

/-- C2, amended: `TTSEngine.run` stops before a comment only when the
accumulated length strictly exceeds `max_length`; with durations `[5,5,5]`
and `max_length = 10` all three segments are synthesized (`included` count 3,
not 2), while any cap strictly below 10 (e.g. `9.9`) yields count 2. -/
theorem C2_truncation_amended :
    ttsIncludedCount 5 [5, 5] 10 = 3 ∧
    ttsIncludedCount 5 [5, 5] (99/10) = 2 := by
  constructor <;> norm_num [ttsIncludedCount, ttsLoopCount]

/-- C9: when the TTS module raises during `call_tts`, the bare `except:`
branch sets `self.length = 0`, discarding all previously accumulated segment
durations; the `run` loop's truncation check for every subsequent segment
therefore starts from this reset accumulator. -/
theorem C9_failure_resets_length (len maxLen : ℚ) (os : List (Option ℚ))
    (h : len ≤ maxLen) :
    call_tts_length len none = 0 ∧
    ttsRunLength maxLen len (none :: os) = ttsRunLength maxLen 0 os := by
  refine ⟨rfl, ?_⟩
  rw [ttsRunLength, if_neg (not_lt.2 h)]
  rfl

/-- C9, witness: with accumulated length 5, cap 10 and one further segment of
duration 3 after the failing one. -/
theorem C9_failure_resets_length_witness :
    (5 : ℚ) ≤ 10 ∧
    (call_tts_length 5 none = 0 ∧
      ttsRunLength 10 5 [none, some 3] = ttsRunLength 10 0 [some 3]) :=
  ⟨by norm_num, C9_failure_resets_length 5 10 [some 3] (by norm_num)⟩

/-- C10: whenever `int(length_of_clip) - int(video_length) > 180`,
`get_start_and_end_times` returns an interval of width exactly
`video_length` whose start lies in `[180, int(length_of_clip) -
int(video_length))`; when the difference is at most 180, `randrange` is
called on an empty range and the call raises (`none`) instead of returning. -/
theorem C10_start_end_times (vl loc : ℚ) (r : ℕ) :
    (180 < pyInt loc - pyInt vl →
      ∃ s e : ℚ, get_start_and_end_times vl loc r = some (s, e) ∧
        e - s = vl ∧ 180 ≤ s ∧ s < ((pyInt loc - pyInt vl : ℤ) : ℚ)) ∧
    (pyInt loc - pyInt vl ≤ 180 → get_start_and_end_times vl loc r = none) := by
  constructor
  · intro h
    set hi : ℤ := pyInt loc - pyInt vl with hhi
    have hpos : 0 < hi - 180 := by omega
    refine ⟨((180 + (r : ℤ) % (hi - 180) : ℤ) : ℚ),
      ((180 + (r : ℤ) % (hi - 180) : ℤ) : ℚ) + vl, ?_, by ring, ?_, ?_⟩
    · rw [get_start_and_end_times]
      rw [if_pos h]
    · have h0 : 0 ≤ (r : ℤ) % (hi - 180) := Int.emod_nonneg _ (by omega)
      have : (180 : ℤ) ≤ 180 + (r : ℤ) % (hi - 180) := by omega
      exact_mod_cast this
    · have hlt : (r : ℤ) % (hi - 180) < hi - 180 := Int.emod_lt_of_pos _ hpos
      have : (180 + (r : ℤ) % (hi - 180) : ℤ) < hi := by omega
      exact_mod_cast this
  · intro h
    rw [get_start_and_end_times, if_neg (not_lt.2 h)]

/-- C10, witness: for a 10-second video on a 300-second background the
returned interval is valid; on a 190-second background (`190 - 10 = 180`)
the call raises. -/
theorem C10_start_end_times_witness :
    (∃ s e : ℚ, get_start_and_end_times 10 300 7 = some (s, e) ∧
      e - s = 10 ∧ 180 ≤ s ∧ s < ((pyInt 300 - pyInt 10 : ℤ) : ℚ)) ∧
    get_start_and_end_times 10 190 7 = none :=
  ⟨(C10_start_end_times 10 300 7).1 (by norm_num [pyInt]),
   (C10_start_end_times 10 190 7).2 (by norm_num [pyInt])⟩

/-- C3, counterexample: the progress reported by `extract_subclip` is not
monotonic.  After a token `out_time_ms=5000000` the bar stands at 5; a
subsequent out-of-order token `out_time_ms=3000000` moves it back to 3 —
`bar.update(time - bar.n)` sets the position to the mapped token value
unconditionally, with no clamp to the last reported value. -/
theorem C3_progress_counterexample :
    barRun 10 [.outTimeMs 5000000] = 5 ∧
    barRun 10 [.outTimeMs 5000000, .outTimeMs 3000000] = 3 ∧
    barRun 10 [.outTimeMs 5000000, .outTimeMs 3000000] <
      barRun 10 [.outTimeMs 5000000] := by
  refine ⟨?_, ?_, ?_⟩ <;> norm_num [barRun, barStep, barPos, pyRound2]

/-- C3, amended: after any token history, an `out_time_ms` token sets the
reported position to its own mapped value `max(round(v/1e6, 2), 0)`
regardless of the last reported value (the only clamp is at 0); hence
whenever that mapped value is below the current position, the reported
progress strictly regresses. -/
theorem C3_progress_amended (total : ℚ) (toks : List FfToken) (v : ℤ) :
    barRun total (toks ++ [.outTimeMs v]) = barPos v ∧
    (barPos v < barRun total toks →
      barRun total (toks ++ [.outTimeMs v]) < barRun total toks) := by
  have h1 : barRun total (toks ++ [.outTimeMs v]) = barPos v := by
    rw [barRun, List.foldl_append]
    rfl
  exact ⟨h1, fun h => h1 ▸ h⟩

/-- C3, witness: the amended statement at the concrete out-of-order pair
`5000000, 3000000` with expected total 10. -/
theorem C3_progress_amended_witness :
    barPos 3000000 < barRun 10 [.outTimeMs 5000000] ∧
    barRun 10 ([.outTimeMs 5000000] ++ [.outTimeMs 3000000]) <
      barRun 10 [.outTimeMs 5000000] :=
  ⟨by norm_num [barPos, pyRound2, barRun, barStep],
   (C3_progress_amended 10 [.outTimeMs 5000000] 3000000).2
     (by norm_num [barPos, pyRound2, barRun, barStep])⟩

/-- C4, counterexample: for a 100×200 source and a 1080:1920 target the
requested crop width `ih·(W/H) = 112.5` exceeds the source width, yet
`prepare_background` raises no `RenderError` and performs no pre-flight
validation: it invokes the engine first and, when the engine fails, prints
the engine's stderr text and exits with status 1. -/
theorem C4_preflight_counterexample :
    PrepEvent.renderErrorRaised ∉ prepare_background_events 100 200 1080 1920 ∧
    prepare_background_events 100 200 1080 1920 =
      [.engineInvoked, .stderrPrintedExitOne] := by
  have h : prepare_background_events 100 200 1080 1920 =
      [.engineInvoked, .stderrPrintedExitOne] := by
    norm_num [prepare_background_events, cropOutW]
  refine ⟨?_, h⟩
  rw [h]
  decide

/-- C4, amended: `prepare_background` never raises a `RenderError` and does
no validation before invoking the engine; for sources wide enough for the
requested crop the result is centered (left margin equals right margin) with
aspect ratio exactly `W : H`, and for too-narrow sources the failure is the
engine's, whose stderr is printed before the process exits with status 1 —
there is no top/bottom cropping branch. -/
theorem C4_preflight_amended (iw ih W H : ℚ) :
    PrepEvent.renderErrorRaised ∉ prepare_background_events iw ih W H ∧
    (cropOutW ih W H ≤ iw → 0 < ih →
      ∃ oW oH x y, prepare_background_crop iw ih W H = some (oW, oH, x, y) ∧
        oW / oH = W / H ∧ x = (iw - oW) / 2 ∧ oW + 2 * x = iw ∧ y = 0) ∧
    (iw < cropOutW ih W H →
      prepare_background_events iw ih W H =
        [.engineInvoked, .stderrPrintedExitOne]) := by
  refine ⟨?_, ?_, ?_⟩
  · rw [prepare_background_events]
    split
    · decide
    · decide
  · intro hle hih
    refine ⟨cropOutW ih W H, ih, (iw - cropOutW ih W H) / 2, 0, ?_, ?_, rfl, by ring, rfl⟩
    · rw [prepare_background_crop, if_pos hle]
    · rw [cropOutW]
      exact mul_div_cancel_left₀ _ (ne_of_gt hih)
  · intro hlt
    rw [prepare_background_events, if_neg (not_le.2 hlt)]

/-- C4, witness: the amended statement at a wide 1920×1080 source for a
1080:1920 target (crop succeeds, centered, exact aspect) and at the small
100×200 source (engine-side failure, stderr printed, exit 1). -/
theorem C4_preflight_amended_witness :
    (∃ oW oH x y, prepare_background_crop 1920 1080 1080 1920 = some (oW, oH, x, y) ∧
      oW / oH = (1080 : ℚ) / 1920 ∧ x = (1920 - oW) / 2 ∧ oW + 2 * x = 1920 ∧ y = 0) ∧
    prepare_background_events 100 200 1080 1920 =
      [.engineInvoked, .stderrPrintedExitOne] :=
  ⟨(C4_preflight_amended 1920 1080 1080 1920).2.1
      (by norm_num [cropOutW]) (by norm_num),
   (C4_preflight_amended 100 200 1080 1920).2.2 (by norm_num [cropOutW])⟩

/-- C5, counterexample: with configured volume 1, `merge_background_audio`
unconditionally returns the `amix` graph reading the background-music file —
it does not check existence, emits no warning and does not return the
unmixed narration — and when the file is missing the subsequent render run
fails and the process exits with status 1 instead of completing. -/
theorem C5_missing_music_counterexample :
    merge_background_audio 1 = .amixWithBackground 1 ∧
    merge_background_audio 1 ≠ .unmixed ∧
    finalRenderOutcome 1 false = .exitedOne ∧
    finalRenderOutcome 1 false ≠ .completed := by
  have h1 : merge_background_audio 1 = .amixWithBackground 1 := by
    rw [merge_background_audio, if_neg (by norm_num)]
  have h2 : finalRenderOutcome 1 false = .exitedOne := by
    rw [finalRenderOutcome, h1]
    rfl
  exact ⟨h1, by rw [h1]; decide, h2, by rw [h2]; decide⟩

/-- C5, amended: a missing background-music file with nonzero configured
volume is NOT recoverable: the assembler always mixes when the volume is
nonzero (never skipping, never warning), so the run fails with exit status 1;
only a configured volume of 0 yields the unmixed narration track, and with
the file present the mixed run completes. -/
theorem C5_missing_music_amended (v : ℚ) (hv : v ≠ 0) :
    merge_background_audio 0 = .unmixed ∧
    merge_background_audio v = .amixWithBackground v ∧
    finalRenderOutcome v false = .exitedOne ∧
    finalRenderOutcome v true = .completed := by
  have h1 : merge_background_audio v = .amixWithBackground v := by
    rw [merge_background_audio, if_neg hv]
  refine ⟨by rw [merge_background_audio, if_pos rfl], h1, ?_, ?_⟩
  · rw [finalRenderOutcome, h1]
    rfl
  · rw [finalRenderOutcome, h1]
    rfl

/-- C5, witness: the amended statement at volume 1. -/
theorem C5_missing_music_amended_witness :
    (1 : ℚ) ≠ 0 ∧
    (merge_background_audio 0 = .unmixed ∧
      merge_background_audio 1 = .amixWithBackground 1 ∧
      finalRenderOutcome 1 false = .exitedOne ∧
      finalRenderOutcome 1 true = .completed) :=
  ⟨by norm_num, C5_missing_music_amended 1 (by norm_num)⟩

/-- C6, counterexample: with the narration-only variant enabled, a failure
of the music-mixed render makes `make_final_video` print the engine's stderr
and call `exit(1)`; the narration-only render is never attempted. -/
theorem C6_variant_counterexample :
    RenderEvent.onlyTTSAttempted ∉ renderPhase true true false ∧
    RenderEvent.exitedOne ∈ renderPhase true true false ∧
    renderPhase true true false = [.mainAttempted, .exitedOne] := by
  decide

/-- C6, amended: the two renders are strictly sequential and dependent: a
failure of the music-mixed render terminates the process (exit status 1)
regardless of configuration, so the narration-only render is attempted only
when the music-mixed render succeeds and the extra-audio folder is enabled. -/
theorem C6_variant_amended (ttsFails : Bool) :
    renderPhase true true ttsFails = [.mainAttempted, .exitedOne] ∧
    RenderEvent.onlyTTSAttempted ∉ renderPhase true true ttsFails ∧
    RenderEvent.onlyTTSAttempted ∈ renderPhase true false ttsFails ∧
    RenderEvent.onlyTTSAttempted ∉ renderPhase false false ttsFails := by
  cases ttsFails <;> decide

/-- C8, counterexample: for the thread title `"Why? / What?"` the filename
`make_final_video` builds is `"Why  What"` — the slash (and the question
marks) are deleted by the `re.sub(r"[^\w\s-]", "", ...)` pre-strip of
line 240 before `name_normalize` runs, so the slash is NOT resolved to the
word `or`; `name_normalize` applied to the raw title would have produced
`"Why or What"`. -/
theorem C8_filename_counterexample :
    codeFilename "Why? / What?".toList = "Why  What".toList ∧
    codeFilename "Why? / What?".toList ≠ "Why or What".toList ∧
    name_normalize "Why? / What?".toList = "Why or What".toList := by
  refine ⟨by decide, by decide, by decide⟩

/-- C8, amended: the slash of `"Why? / What?"` is stripped (not resolved to
`or`) because line 240's sanitization runs before `name_normalize`, giving
filename `"Why  What"`; `name_normalize` on the raw title would give
`"Why or What"`; and for every title the filename never exceeds 251
characters, the clamp `[:251]` being applied after all sanitization. -/
theorem C8_filename_amended (t : List Char) :
    codeFilename "Why? / What?".toList = "Why  What".toList ∧
    name_normalize "Why? / What?".toList = "Why or What".toList ∧
    codeFilename t = (name_normalize (stripSpecial t)).take 251 ∧
    (codeFilename t).length ≤ 251 := by
  refine ⟨by decide, by decide, rfl, ?_⟩
  rw [codeFilename, List.length_take]
  omega

end RedditStoryBot
